import Mathlib

/-!
Verification of the watchrabbit event pipeline (Go sources) against its
specification. The Go code is shallowly embedded: pure path manipulation is
translated directly, effectful calls (filesystem, process execution, clocks,
broker I/O) are parameterised by explicit environment records, and the broker
client's lifecycle is a small state machine over an explicit client record.
Times are modelled as natural numbers of nanoseconds (Go `time.Duration`
ticks); strings are Lean strings.
-/

namespace Watchrabbit

/-! ## Path helpers (Go `path/filepath`)

`goExt` embeds `filepath.Ext`: the suffix beginning at the final dot in the
final slash-separated element of the path, empty when there is no dot.
`goBase` embeds `filepath.Base` for slash-separated paths. -/

def goExtAux : List Char → List Char → String
  | [], _ => ""
  | c :: rest, acc =>
    if c = '/' then ""
    else if c = '.' then String.mk ('.' :: acc)
    else goExtAux rest (c :: acc)

def goExt (path : String) : String :=
  goExtAux path.data.reverse []

def goBase (path : String) : String :=
  if path = "" then "."
  else
    let cs := (path.data.reverse.dropWhile (· = '/')).reverse
    if cs = [] then "/"
    else String.mk ((cs.reverse.takeWhile (· ≠ '/')).reverse)

/-- Go `%02d` formatting used by the S3 key template. -/
def pad2 (n : Nat) : String :=
  if n < 10 then "0" ++ toString n else toString n

/-- One second of Go `time.Duration` ticks (`time.Second`). -/
def timeSecond : Nat := 1000000000

/-! ## Task Supervisor (`internal/services/analyzer/descriptive_analysis.go`) -/

/-- Structure `DescriptiveService` from `descriptive_analysis.go`: configuration of the
R-script supervisor. `Timeout` is in seconds, as in the source. -/
structure DescriptiveService where
  RExecutable : String
  ScriptsDir : String
  Timeout : Nat

/-- Structure `DescriptiveAnalysisMetadata` from `descriptive_analysis.go`; the source's
`Status` field comment reads: "success", "failed", "timeout". -/
structure DescriptiveAnalysisMetadata where
  analysisID : String
  filePath : String
  status : String
  outputPath : String
  startTime : Nat
  endTime : Nat
  duration : Nat
  errorMessage : String
  metadata : List (String × String)
deriving Repr, DecidableEq

/-- Behaviour of the one external process launched by `runWithTimeout`:
either `cmd.Start()` itself fails, or the process runs for `time` ticks and
`cmd.Wait()` returns `exitErr` (`none` = zero exit status, `some msg` =
non-zero exit / wait error). -/
inductive ProcBehavior where
  | startFailure (msg : String)
  | runs (time : Nat) (exitErr : Option String)
deriving Repr, DecidableEq

/-- Function `runWithTimeout` from `descriptive_analysis.go`: starts the command, then
races a `done` channel against `time.After(timeout)`. Returns the error
handed back to the caller together with whether the external process is still
running when the call returns (`killOk` models whether `cmd.Process.Kill()`
succeeds). A process finishing within the timeout wins the `select`. -/
def runWithTimeout (p : ProcBehavior) (timeout : Nat) (killOk : Bool) :
    Option String × Bool :=
  match p with
  | .startFailure msg => (some msg, false)
  | .runs t exitErr =>
    if t ≤ timeout then (exitErr, false)
    else if killOk then (some "process timed out", false)
    else (some "failed to kill process after timeout", true)

/-- Function `createFailedResult` from `descriptive_analysis.go`: the metadata template
for any failed execution. Both `time.Now()` calls are modelled by `now`. -/
def createFailedResult (analysisID filePath errorMessage : String) (now : Nat) :
    DescriptiveAnalysisMetadata :=
  { analysisID := analysisID
    filePath := filePath
    status := "failed"
    outputPath := ""
    startTime := now
    endTime := now
    duration := 0
    errorMessage := errorMessage
    metadata := [("fileType", goExt filePath), ("analysisType", "descriptive")] }

/-- Environment for one `ExecuteAnalysis` call: the values produced by its
effectful steps (`uuid.New`, `os.TempDir`, date formatting, `os.MkdirAll`,
`os.Stat` on the script, the external process, captured stdio, `os.Stat` on
the output artifact, and the two `time.Now()` readings around the run). -/
structure ExecEnv where
  analysisID : String
  tempDir : String
  dateStr : String
  mkdirErr : Option String
  scriptExists : Bool
  proc : ProcBehavior
  killOk : Bool
  stderrText : String
  stdoutText : String
  outputExists : Bool
  startTime : Nat
  endTime : Nat
deriving Repr

/-- Result of `ExecuteAnalysis`: the metadata record, the returned Go `error`
(`none` = nil), and an instrumentation bit recording whether control reached
the process-launch step (`cmd.Start` via `runWithTimeout`). -/
structure ExecResult where
  meta : DescriptiveAnalysisMetadata
  err : Option String
  procStarted : Bool
deriving Repr

/-- Function `ExecuteAnalysis` from `descriptive_analysis.go`, step for step: build the
output path, reject extensions other than `.csv`/`.sas7bdat`, check the script
exists, run the command under `runWithTimeout`, then trust a zero exit only if
the output artifact exists on disk. -/
def ExecuteAnalysis (s : DescriptiveService) (env : ExecEnv) (filePath : String) :
    ExecResult :=
  let analysisID := env.analysisID
  let outputDir := env.tempDir ++ "/biomarker-analysis/" ++ env.dateStr
  match env.mkdirErr with
  | some e =>
    { meta := createFailedResult analysisID filePath
        ("Failed to create output directory: " ++ e) env.startTime
      err := some e, procStarted := false }
  | none =>
    let baseFileName := goBase filePath
    let stem := baseFileName.take (baseFileName.length - (goExt baseFileName).length)
    let outputFile := outputDir ++ "/analysis_" ++ stem ++ "_"
        ++ analysisID.take 8 ++ ".html"
    let scriptName := "wr_dummy_analysis.R"
    let fileExt := goExt filePath
    if fileExt ≠ ".csv" ∧ fileExt ≠ ".sas7bdat" then
      let e := "unsupported file type: " ++ fileExt
      { meta := createFailedResult analysisID filePath e env.startTime
        err := some e, procStarted := false }
    else
      let scriptPath := s.ScriptsDir ++ "/" ++ scriptName
      if ¬ env.scriptExists then
        let errMsg := "R script not found: " ++ scriptPath
        { meta := createFailedResult analysisID filePath errMsg env.startTime
          err := some errMsg, procStarted := false }
      else
        let startTime := env.startTime
        let runErr := (runWithTimeout env.proc (s.Timeout * timeSecond) env.killOk).1
        let endTime := env.endTime
        let duration := endTime - startTime
        match runErr with
        | some e =>
          let errorMsg := "R script execution failed: " ++ e
              ++ "\nStderr: " ++ env.stderrText
          { meta := createFailedResult analysisID filePath errorMsg endTime
            err := some e, procStarted := true }
        | none =>
          if ¬ env.outputExists then
            let errorMsg := "R script did not generate expected output file"
            { meta := createFailedResult analysisID filePath errorMsg endTime
              err := some errorMsg, procStarted := true }
          else
            { meta :=
                { analysisID := analysisID
                  filePath := filePath
                  status := "success"
                  outputPath := outputFile
                  startTime := startTime
                  endTime := endTime
                  duration := duration
                  errorMessage := ""
                  metadata := [("fileType", fileExt), ("analysisType", "descriptive"),
                               ("rScript", scriptName), ("rOutput", env.stdoutText)] }
              err := none, procStarted := true }

/-! ## Domain events (`internal/domain/events/events.go`)

`AnalysisCompletedEvent` carries the `status` and `errorMessage` fields the
worker's composite literals populate (per spec §3's event envelope). -/

structure FileDetectedEvent where
  filePath : String
  fileType : String
  size : Int
  timestamp : Nat
deriving Repr, DecidableEq

structure AnalysisRequestedEvent where
  filePath : String
  fileType : String
  timestamp : Nat
deriving Repr, DecidableEq

structure AnalysisCompletedEvent where
  filePath : String
  resultKey : String
  analysisType : String
  processingTime : Nat
  timestamp : Nat
  status : String
  errorMessage : String
deriving Repr, DecidableEq

/-- A message handed to `PublishEvent`: target exchange, routing key, payload. -/
inductive OutEvent where
  | analysisRequested (exchange routingKey : String) (e : AnalysisRequestedEvent)
  | analysisCompleted (exchange routingKey : String) (e : AnalysisCompletedEvent)
deriving Repr, DecidableEq

/-! ## S3 storage (`internal/services/storage/s3.go`) -/

/-- Structure `ResultData` from `s3.go`. -/
structure ResultData where
  filePath : String
  analysisID : String
  contentType : String
  outputPath : String
  metadata : List (String × String)
deriving Repr

/-- Environment for one `StoreResult` call: the date used in the key template
and the outcomes of the open / read / upload steps (`none` = success). -/
structure StoreEnv where
  year : Nat
  month : Nat
  day : Nat
  openErr : Option String
  readErr : Option String
  uploadErr : Option String
deriving Repr

/-- Function `StoreResult` from `s3.go`: builds the key
`results/{year}/{month}/{day}/{analysisId}/{filename}`, then opens, reads and
uploads the local artifact; any step failing yields an empty key and an
error. -/
def StoreResult (env : StoreEnv) (result : ResultData) : Except String String :=
  let s3Key := "results/" ++ toString env.year ++ "/" ++ pad2 env.month ++ "/"
      ++ pad2 env.day ++ "/" ++ result.analysisID ++ "/" ++ goBase result.outputPath
  match env.openErr with
  | some e => .error ("failed to open result file: " ++ e)
  | none =>
  match env.readErr with
  | some e => .error ("failed to read file content: " ++ e)
  | none =>
  match env.uploadErr with
  | some e => .error ("failed to upload file to S3: " ++ e)
  | none => .ok s3Key

/-! ## Worker event handlers (`cmd/worker/main.go`) -/

/-- Function `handleFileDetectedEvent` from `cmd/worker/main.go`: unmarshal the payload
(`none` models a payload that fails `json.Unmarshal`, returning that error),
then unconditionally build an `AnalysisRequested` with a fresh timestamp and
publish it to `biomarker.analysis.events` under routing key
`"analysis.requested" + fileType`. The source performs no file-type check
here. Returns the published events and the handler's returned error. -/
def handleFileDetectedEvent (now : Nat) (input : Option FileDetectedEvent) :
    List OutEvent × Option String :=
  match input with
  | none => ([], some "unmarshal error")
  | some fileEvent =>
    let requestEvent : AnalysisRequestedEvent :=
      { filePath := fileEvent.filePath
        fileType := fileEvent.fileType
        timestamp := now }
    let routingKey := "analysis.requested" ++ fileEvent.fileType
    ([.analysisRequested "biomarker.analysis.events" routingKey requestEvent], none)

/-- Environment for one `handleAnalysisRequestedEvent` call: the analyzer's
environment, the storage environment, and the `time.Now()` reading used for
`time.Since(requestEvent.Timestamp)` and the event timestamp. -/
structure WorkerEnv where
  exec : ExecEnv
  store : StoreEnv
  now : Nat
deriving Repr

/-- Modelled from the spec: the worker's success branch fills `ResultKey` from
an `s3Key` whose producing call is absent from `cmd/worker/main.go` (the
identifier is unbound there). Per §6, on success the artifact is handed to the
blob store — `StoreResult` of `internal/services/storage/s3.go` — and the
returned key becomes the completion event's `resultKey`; a store failure "is
treated as analysis failure for the purpose of the emitted completion
event". -/
def storeArtifact (env : StoreEnv) (meta : DescriptiveAnalysisMetadata) :
    Except String String :=
  StoreResult env
    { filePath := meta.filePath
      analysisID := meta.analysisID
      contentType := "text/html"
      outputPath := meta.outputPath
      metadata := meta.metadata }

/-- Function `handleAnalysisRequestedEvent` from `cmd/worker/main.go`: unmarshal the
request, run `ExecuteAnalysis`; on error publish a `"failed"` completion event
with empty `ResultKey`, `ProcessingTime = time.Since(requestEvent.Timestamp)`
and the error text (the source sets `AnalysisType` from `FilePath` in this
branch); on success hand the artifact to storage (see `storeArtifact`) and
publish a `"success"` completion event with `ResultKey = s3Key` and
`ProcessingTime = result.Duration`. Routing key is
`"analysis.completed" + fileType` on exchange `biomarker.result.events`. -/
def handleAnalysisRequestedEvent (s : DescriptiveService) (env : WorkerEnv)
    (input : Option AnalysisRequestedEvent) : List OutEvent × Option String :=
  match input with
  | none => ([], some "unmarshal error")
  | some requestEvent =>
    let result := ExecuteAnalysis s env.exec requestEvent.filePath
    match result.err with
    | some e =>
      let completedEvent : AnalysisCompletedEvent :=
        { filePath := requestEvent.filePath
          resultKey := ""
          analysisType := requestEvent.filePath
          processingTime := env.now - requestEvent.timestamp
          timestamp := env.now
          status := "failed"
          errorMessage := e }
      let routingKey := "analysis.completed" ++ requestEvent.fileType
      ([.analysisCompleted "biomarker.result.events" routingKey completedEvent], none)
    | none =>
      match storeArtifact env.store result.meta with
      | .error e =>
        let completedEvent : AnalysisCompletedEvent :=
          { filePath := requestEvent.filePath
            resultKey := ""
            analysisType := requestEvent.fileType
            processingTime := env.now - requestEvent.timestamp
            timestamp := env.now
            status := "failed"
            errorMessage := e }
        let routingKey := "analysis.completed" ++ requestEvent.fileType
        ([.analysisCompleted "biomarker.result.events" routingKey completedEvent], none)
      | .ok s3Key =>
        let completedEvent : AnalysisCompletedEvent :=
          { filePath := requestEvent.filePath
            resultKey := s3Key
            analysisType := requestEvent.fileType
            processingTime := result.meta.duration
            timestamp := env.now
            status := "success"
            errorMessage := "" }
        let routingKey := "analysis.completed" ++ requestEvent.fileType
        ([.analysisCompleted "biomarker.result.events" routingKey completedEvent], none)

/-! ## File watcher (`cmd/file-watcher/main.go`) -/

/-- Function `isFileTypeSupported` from `cmd/file-watcher/main.go`: linear scan of the
configured extension list. -/
def isFileTypeSupported (ext : String) (supportedExts : List String) : Bool :=
  supportedExts.any (fun supported => ext == supported)

/-- Default of `FILEWATCHER_SUPPORTED_EXTENSIONS` from `internal/config/config.go`
(`".csv,.sas7bdat"`). -/
def defaultSupportedExtensions : List String := [".csv", ".sas7bdat"]

/-- One `fsnotify` event as the watcher loop sees it. -/
structure FsEvent where
  name : String
  isCreate : Bool
  isWrite : Bool
deriving Repr

/-- Result of the watcher's `os.Stat` on the event's path. -/
structure FsInfo where
  statErr : Bool
  isDir : Bool
  size : Int
deriving Repr

/-- The body of the file-watcher's event loop from `cmd/file-watcher/main.go`:
only create/write events with a supported extension, a successful stat, and a
non-directory target yield a published `FileDetected`; everything else is
skipped. -/
def watcherEmits (supportedExts : List String) (ev : FsEvent) (info : FsInfo)
    (now : Nat) : Option FileDetectedEvent :=
  if ev.isCreate || ev.isWrite then
    let ext := goExt ev.name
    if ¬ isFileTypeSupported ext supportedExts then none
    else if info.statErr then none
    else if info.isDir then none
    else some { filePath := ev.name, fileType := ext, size := info.size, timestamp := now }
  else none

/-! ## Subscriber acknowledgment policy (`pkg/messaging/rabbitmq.go`) -/

/-- The acknowledgment actions available on a delivery: `ack multiple` models
`msg.Ack(multiple)`, `nack multiple requeue` models
`msg.Nack(multiple, requeue)`. -/
inductive AckAction where
  | ack (multiple : Bool)
  | nack (multiple requeue : Bool)
deriving Repr, DecidableEq

/-- The `auto-ack` argument `Subscribe` passes to `ch.Consume` (third
positional argument in the source call). -/
def consumeAutoAck : Bool := false

/-- The delivery loop spun up by `Subscribe`: for each message in delivery
order, invoke the handler on its body; on a non-nil error `msg.Nack(false,
true)`, otherwise `msg.Ack(false)`. Returns the acknowledgment action taken
for each message. -/
def subscribeLoop (handler : String → Option String) : List String → List AckAction
  | [] => []
  | msg :: rest =>
    let err := handler msg
    (match err with
     | some _ => AckAction.nack false true
     | none => AckAction.ack false) :: subscribeLoop handler rest

/-! ## Broker connection manager (`pkg/messaging/rabbitmq.go`)

The client is a record of the `RabbitMQClient` fields that drive its lifecycle
logic, plus `chanActions`: the channel-scoped operations (declares, binds,
consumer registrations) performed on the *current* channel since it was
opened. Opening a fresh connection and channel (`connect`) starts from an
empty action list — a newly opened channel carries no declarations and no
consumers. `connRetry` holds whether the capacity-one retry channel is
occupied. -/

inductive ChanAction where
  | exchangeDeclare (name kind : String) (durable autoDelete : Bool)
  | queueDeclare (name : String) (durable autoDelete : Bool)
  | queueBind (queue exchange routingKey : String)
  | consume (queue : String)
deriving Repr, DecidableEq

structure RabbitMQClient where
  connected : Bool
  closed : Bool
  connRetry : Bool
  chanActions : List ChanAction
deriving Repr, DecidableEq

/-- Function `connect` from `rabbitmq.go` (successful case): dial, open a channel,
store both, and register the `NotifyClose` watcher. Nothing else runs: the
new channel starts with no declarations and no consumers. -/
def connect (st : RabbitMQClient) : RabbitMQClient :=
  { st with connected := true, chanActions := [] }

/-- The goroutine registered in `connect`: when the connection's close
notification fires, signal `connRetry` unless the close was intentional
(`c.closed`). -/
def notifyCloseWatcher (st : RabbitMQClient) : RabbitMQClient :=
  if st.closed then st else { st with connRetry := true }

/-- An unsolicited connection loss: the socket drops (current channel and its
consumers die with it) and the `NotifyClose` watcher fires. -/
def unsolicitedClose (st : RabbitMQClient) : RabbitMQClient :=
  notifyCloseWatcher { st with connected := false, chanActions := [] }

/-- One round of `reconnectMonitor` from `rabbitmq.go`: receive from
`connRetry` (draining the single slot); if the client was intentionally
closed, return without reconnecting; otherwise retry `connect` until it
succeeds (modelled as the eventual successful `connect`). The Boolean records
whether `connect` was called. -/
def reconnectStep (st : RabbitMQClient) : RabbitMQClient × Bool :=
  if st.connRetry then
    let st := { st with connRetry := false }
    if st.closed then (st, false)
    else (connect st, true)
  else (st, false)

/-- Iterated rounds of the reconnect monitor. -/
def reconnectIter : Nat → RabbitMQClient → RabbitMQClient
  | 0, st => st
  | n + 1, st => reconnectIter n (reconnectStep st).1

/-- The exchange declarations, queue declarations and bindings issued by
`SetupInfrastructure` in `rabbitmq.go`, in source order. -/
def topologyActions : List ChanAction :=
  [ .exchangeDeclare "biomarker.file.events" "topic" true false,
    .exchangeDeclare "biomarker.analysis.events" "topic" true false,
    .exchangeDeclare "biomarker.result.events" "topic" true false,
    .queueDeclare "file.detected" true false,
    .queueDeclare "analysis.requested" true false,
    .queueDeclare "analysis.completed" true false,
    .queueBind "file.detected" "biomarker.file.events" "file.detected.*",
    .queueBind "analysis.requested" "biomarker.analysis.events" "analysis.requested.*",
    .queueBind "analysis.completed" "biomarker.result.events" "analysis.completed.*" ]

/-- Function `SetupInfrastructure` from `rabbitmq.go` (successful case): issues the
topology declarations on the current channel. -/
def setupInfrastructure (st : RabbitMQClient) : RabbitMQClient :=
  { st with chanActions := st.chanActions ++ topologyActions }

/-- Function `Subscribe` from `rabbitmq.go` (successful case): registers a consumer on
the current channel. -/
def subscribe (queue : String) (st : RabbitMQClient) : RabbitMQClient :=
  { st with chanActions := st.chanActions ++ [.consume queue] }

/-- Function `Close` from `rabbitmq.go`: set `c.closed = true` first, then close the
channel and the connection; closing the connection delivers the close
notification to the watcher registered in `connect`, which therefore observes
`closed = true`. -/
def closeClient (st : RabbitMQClient) : RabbitMQClient :=
  let st := { st with closed := true }
  let st := { st with connected := false, chanActions := [] }
  notifyCloseWatcher st

/-- The client state after the worker's startup sequence in
`cmd/worker/main.go`: `NewRabbitMQClient` (initial `connect`),
`SetupInfrastructure`, then the two `Subscribe` calls. -/
def workerStartupClient : RabbitMQClient :=
  subscribe "analysis.requested" (subscribe "file.detected"
    (setupInfrastructure (connect
      { connected := false, closed := false, connRetry := false, chanActions := [] })))

/-! ## Helper lemmas -/

theorem append_ne_empty_left (s t : String) (h : s ≠ "") : s ++ t ≠ "" := by
  intro hc
  apply h
  have hd : (s ++ t).data = s.data ++ t.data := String.data_append s t
  rw [hc] at hd
  have h2 : s.data = [] := (List.append_eq_nil.mp (Eq.symm hd)).1
  cases s with | mk d =>
  simp at h2
  rw [h2]

/-- Every result of `ExecuteAnalysis` is either the success record (which
requires the output artifact to exist) or a `createFailedResult` record whose
error message is non-empty. -/
theorem executeAnalysis_shape (s : DescriptiveService) (env : ExecEnv) (fp : String) :
    ((ExecuteAnalysis s env fp).meta.status = "success"
      ∧ env.outputExists = true
      ∧ (ExecuteAnalysis s env fp).err = none)
    ∨ ((ExecuteAnalysis s env fp).meta.status = "failed"
      ∧ (ExecuteAnalysis s env fp).meta.outputPath = ""
      ∧ (ExecuteAnalysis s env fp).meta.errorMessage ≠ ""
      ∧ (ExecuteAnalysis s env fp).meta.duration = 0
      ∧ (ExecuteAnalysis s env fp).err ≠ none) := by
  obtain ⟨aid, td, ds, mkdirErr, scriptExists, proc, killOk, serr, sout, outExists, st, et⟩ := env
  cases mkdirErr with
  | some e =>
    refine Or.inr ⟨rfl, rfl, ?_, rfl, by simp [ExecuteAnalysis]⟩
    show ("Failed to create output directory: " ++ e) ≠ ""
    exact append_ne_empty_left _ _ (by decide)
  | none =>
    by_cases hext : goExt fp ≠ ".csv" ∧ goExt fp ≠ ".sas7bdat"
    · have hred : ExecuteAnalysis s ⟨aid, td, ds, none, scriptExists, proc, killOk, serr, sout, outExists, st, et⟩ fp
        = { meta := createFailedResult aid fp ("unsupported file type: " ++ goExt fp) st
            err := some ("unsupported file type: " ++ goExt fp), procStarted := false } := by
        simp only [ExecuteAnalysis]
        rw [if_pos hext]
      rw [hred]
      refine Or.inr ⟨rfl, rfl, ?_, rfl, by simp⟩
      show ("unsupported file type: " ++ goExt fp) ≠ ""
      exact append_ne_empty_left _ _ (by decide)
    · cases scriptExists with
      | false =>
        have hred : ExecuteAnalysis s ⟨aid, td, ds, none, false, proc, killOk, serr, sout, outExists, st, et⟩ fp
          = { meta := createFailedResult aid fp ("R script not found: " ++ (s.ScriptsDir ++ "/" ++ "wr_dummy_analysis.R")) st
              err := some ("R script not found: " ++ (s.ScriptsDir ++ "/" ++ "wr_dummy_analysis.R")), procStarted := false } := by
          simp only [ExecuteAnalysis]
          rw [if_neg hext]
          simp
        rw [hred]
        refine Or.inr ⟨rfl, rfl, ?_, rfl, by simp⟩
        show ("R script not found: " ++ (s.ScriptsDir ++ "/" ++ "wr_dummy_analysis.R")) ≠ ""
        exact append_ne_empty_left _ _ (by decide)
      | true =>
        rcases hrun : (runWithTimeout proc (s.Timeout * timeSecond) killOk).1 with _ | e
        · cases outExists with
          | false =>
            have hred : ExecuteAnalysis s ⟨aid, td, ds, none, true, proc, killOk, serr, sout, false, st, et⟩ fp
              = { meta := createFailedResult aid fp "R script did not generate expected output file" et
                  err := some "R script did not generate expected output file", procStarted := true } := by
              simp only [ExecuteAnalysis]
              rw [if_neg hext]
              simp only [hrun]
              simp
            rw [hred]
            refine Or.inr ⟨rfl, rfl, ?_, rfl, by simp⟩
            show "R script did not generate expected output file" ≠ ""
            decide
          | true =>
            have hred : (ExecuteAnalysis s ⟨aid, td, ds, none, true, proc, killOk, serr, sout, true, st, et⟩ fp).meta.status
                = "success" ∧ (ExecuteAnalysis s ⟨aid, td, ds, none, true, proc, killOk, serr, sout, true, st, et⟩ fp).err = none := by
              constructor <;> (simp only [ExecuteAnalysis]; rw [if_neg hext]; simp only [hrun]; simp)
            exact Or.inl ⟨hred.1, rfl, hred.2⟩
        · have hred : ExecuteAnalysis s ⟨aid, td, ds, none, true, proc, killOk, serr, sout, outExists, st, et⟩ fp
            = { meta := createFailedResult aid fp ("R script execution failed: " ++ e ++ "\nStderr: " ++ serr) et
                err := some e, procStarted := true } := by
            simp only [ExecuteAnalysis]
            rw [if_neg hext]
            simp only [hrun]
            simp
          rw [hred]
          refine Or.inr ⟨rfl, rfl, ?_, rfl, by simp⟩
          show ("R script execution failed: " ++ e ++ "\nStderr: " ++ serr) ≠ ""
          exact append_ne_empty_left _ _ (append_ne_empty_left _ _ (append_ne_empty_left _ _ (by decide)))

/-! ## Concrete fixtures for witnesses and counterexamples -/

/-- A benign analyzer configuration: the default 300-second timeout. -/
def sampleService : DescriptiveService :=
  { RExecutable := "/usr/bin/Rscript", ScriptsDir := "./scripts/r", Timeout := 300 }

/-- A benign execution environment: directory creation succeeds, the script
exists, the process exits zero after 1 tick, and the output artifact exists. -/
def sampleEnv : ExecEnv :=
  { analysisID := "0123456789abcdef"
    tempDir := "/tmp"
    dateStr := "20260101"
    mkdirErr := none
    scriptExists := true
    proc := .runs 1 none
    killOk := true
    stderrText := ""
    stdoutText := "ok"
    outputExists := true
    startTime := 10
    endTime := 15 }

/-- An analyzer configuration with a 1-second timeout. -/
def shortTimeoutService : DescriptiveService :=
  { RExecutable := "/usr/bin/Rscript", ScriptsDir := "./scripts/r", Timeout := 1 }

/-- An execution environment whose external process runs for 2 seconds,
exceeding `shortTimeoutService`'s 1-second timeout. -/
def slowProcEnv : ExecEnv :=
  { sampleEnv with proc := .runs (2 * timeSecond) none, startTime := 0, endTime := 2 * timeSecond }

/-! ## Claims -/

/-- C1: the spec claims a task running longer than the configured timeout `T`
yields outcome `TimedOut`, with returned status `"timeout"` distinct from
`"failed"`. On the code, `runWithTimeout` does kill the process and the call
returns within `T` (the process is no longer running), but `ExecuteAnalysis`
funnels the resulting error through `createFailedResult`, so the returned
status is `"failed"`, not `"timeout"`: with a 1-second timeout and a 2-second
process, the status of the result is `"failed"` and not `"timeout"`. -/
theorem C1_timeout_status_is_failed_not_timeout :
    runWithTimeout slowProcEnv.proc (shortTimeoutService.Timeout * timeSecond) slowProcEnv.killOk
      = (some "process timed out", false)
    ∧ (ExecuteAnalysis shortTimeoutService slowProcEnv "/data/a.csv").meta.status = "failed"
    ∧ ¬ (ExecuteAnalysis shortTimeoutService slowProcEnv "/data/a.csv").meta.status = "timeout" := by
  decide

/-- C9: for every input whose extension is outside `{.csv, .sas7bdat}`,
`ExecuteAnalysis` returns a `"failed"` outcome and control never reaches the
process-launch step. -/
theorem C9_unsupported_type_failed_without_process (s : DescriptiveService)
    (env : ExecEnv) (fp : String)
    (h1 : goExt fp ≠ ".csv") (h2 : goExt fp ≠ ".sas7bdat") :
    (ExecuteAnalysis s env fp).meta.status = "failed"
    ∧ (ExecuteAnalysis s env fp).procStarted = false := by
  obtain ⟨aid, td, ds, mkdirErr, scriptExists, proc, killOk, serr, sout, outExists, st, et⟩ := env
  cases mkdirErr with
  | some e => exact ⟨rfl, rfl⟩
  | none =>
    have hred : ExecuteAnalysis s ⟨aid, td, ds, none, scriptExists, proc, killOk, serr, sout, outExists, st, et⟩ fp
        = { meta := createFailedResult aid fp ("unsupported file type: " ++ goExt fp) st
            err := some ("unsupported file type: " ++ goExt fp), procStarted := false } := by
      simp only [ExecuteAnalysis]
      rw [if_pos ⟨h1, h2⟩]
    rw [hred]
    exact ⟨rfl, rfl⟩

/-- Witness for C9 at the concrete unsupported input `/data/a.txt`. -/
theorem C9_unsupported_type_failed_without_process_witness :
    (ExecuteAnalysis sampleService sampleEnv "/data/a.txt").meta.status = "failed"
    ∧ (ExecuteAnalysis sampleService sampleEnv "/data/a.txt").procStarted = false :=
  C9_unsupported_type_failed_without_process sampleService sampleEnv "/data/a.txt"
    (by decide) (by decide)

/-- C10: every non-success metadata record produced by `ExecuteAnalysis` has
status `"failed"`, an empty output path, a non-empty error message, and a
duration of zero (the elapsed run time of a failed or timed-out task is not
recorded). -/
theorem C10_failed_metadata_shape (s : DescriptiveService) (env : ExecEnv) (fp : String)
    (h : (ExecuteAnalysis s env fp).meta.status ≠ "success") :
    (ExecuteAnalysis s env fp).meta.status = "failed"
    ∧ (ExecuteAnalysis s env fp).meta.outputPath = ""
    ∧ (ExecuteAnalysis s env fp).meta.errorMessage ≠ ""
    ∧ (ExecuteAnalysis s env fp).meta.duration = 0 := by
  rcases executeAnalysis_shape s env fp with ⟨h1, _, _⟩ | ⟨h1, h2, h3, h4, _⟩
  · exact absurd h1 h
  · exact ⟨h1, h2, h3, h4⟩

/-- Witness for C10 at a concrete timed-out run: 2-second process under a
1-second timeout. -/
theorem C10_failed_metadata_shape_witness :
    (ExecuteAnalysis shortTimeoutService slowProcEnv "/data/a.csv").meta.status = "failed"
    ∧ (ExecuteAnalysis shortTimeoutService slowProcEnv "/data/a.csv").meta.outputPath = ""
    ∧ (ExecuteAnalysis shortTimeoutService slowProcEnv "/data/a.csv").meta.errorMessage ≠ ""
    ∧ (ExecuteAnalysis shortTimeoutService slowProcEnv "/data/a.csv").meta.duration = 0 :=
  C10_failed_metadata_shape shortTimeoutService slowProcEnv "/data/a.csv" (by decide)

/-- C6: a `"success"` outcome requires the output artifact to exist on disk
after exit, and a zero exit status (process finished within the timeout with
`exitErr = none`) with a missing artifact yields a `"failed"` outcome, never
success. -/
theorem C6_zero_exit_missing_artifact_failed (s : DescriptiveService)
    (env : ExecEnv) (fp : String) :
    ((ExecuteAnalysis s env fp).meta.status = "success" → env.outputExists = true)
    ∧ (∀ t : Nat, env.proc = ProcBehavior.runs t none → t ≤ s.Timeout * timeSecond →
        env.outputExists = false →
        (ExecuteAnalysis s env fp).meta.status = "failed"
        ∧ (ExecuteAnalysis s env fp).meta.status ≠ "success") := by
  constructor
  · intro hs
    rcases executeAnalysis_shape s env fp with ⟨_, ho, _⟩ | ⟨h1, _⟩
    · exact ho
    · rw [h1] at hs
      exact absurd hs (by decide)
  · intro t _ _ hmiss
    rcases executeAnalysis_shape s env fp with ⟨_, ho, _⟩ | ⟨h1, _⟩
    · rw [ho] at hmiss
      exact absurd hmiss (by decide)
    · exact ⟨h1, by rw [h1]; decide⟩

/-- Witness for C6: the §8 scenario — analysis on `/data/a.csv` exits zero
but produces no output file, and the outcome is `"failed"`, never
`"success"`. -/
theorem C6_zero_exit_missing_artifact_failed_witness :
    (ExecuteAnalysis sampleService { sampleEnv with outputExists := false } "/data/a.csv").meta.status = "failed"
    ∧ (ExecuteAnalysis sampleService { sampleEnv with outputExists := false } "/data/a.csv").meta.status ≠ "success" :=
  (C6_zero_exit_missing_artifact_failed sampleService
    { sampleEnv with outputExists := false } "/data/a.csv").2 1 rfl (by decide) rfl

/-! ## Worker handler claims -/

/-- Projection of the `AnalysisCompleted` payloads out of a publish list. -/
def completedEvents (l : List OutEvent) : List AnalysisCompletedEvent :=
  l.filterMap fun e =>
    match e with
    | .analysisCompleted _ _ ce => some ce
    | _ => none

theorem storeResult_ok_key_ne_empty (env : StoreEnv) (rd : ResultData) (k : String)
    (h : StoreResult env rd = .ok k) : k ≠ "" := by
  obtain ⟨y, m, d, oe, re, ue⟩ := env
  cases oe with
  | some e => simp [StoreResult] at h
  | none =>
    cases re with
    | some e => simp [StoreResult] at h
    | none =>
      cases ue with
      | some e => simp [StoreResult] at h
      | none =>
        simp [StoreResult] at h
        rw [← h]
        exact append_ne_empty_left _ _ (append_ne_empty_left _ _ (append_ne_empty_left _ _
          (append_ne_empty_left _ _ (append_ne_empty_left _ _ (append_ne_empty_left _ _
            (append_ne_empty_left _ _ (append_ne_empty_left _ _
              (append_ne_empty_left _ _ (by decide)))))))))

/-- C2: for every well-formed `AnalysisRequested` the worker handler publishes
exactly one `AnalysisCompleted`, its status lies in
`{success, failed, timeout}`, and its `resultKey` is non-empty exactly when
the status is `"success"`. -/
theorem C2_exactly_one_completed (s : DescriptiveService) (env : WorkerEnv)
    (req : AnalysisRequestedEvent) :
    (handleAnalysisRequestedEvent s env (some req)).1.length = 1
    ∧ ∀ ce ∈ completedEvents (handleAnalysisRequestedEvent s env (some req)).1,
        (ce.status = "success" ∨ ce.status = "failed" ∨ ce.status = "timeout")
        ∧ (ce.resultKey ≠ "" ↔ ce.status = "success") := by
  cases hE : (ExecuteAnalysis s env.exec req.filePath).err with
  | some e =>
    have hred : handleAnalysisRequestedEvent s env (some req)
        = ([.analysisCompleted "biomarker.result.events"
              ("analysis.completed" ++ req.fileType)
              { filePath := req.filePath, resultKey := "", analysisType := req.filePath
                processingTime := env.now - req.timestamp, timestamp := env.now
                status := "failed", errorMessage := e }], none) := by
      simp only [handleAnalysisRequestedEvent, hE]
    rw [hred]
    refine ⟨rfl, ?_⟩
    intro ce hce
    simp [completedEvents] at hce
    rw [hce]
    exact ⟨Or.inr (Or.inl rfl), iff_of_false (by simp) (by simp)⟩
  | none =>
    cases hS : storeArtifact env.store (ExecuteAnalysis s env.exec req.filePath).meta with
    | error e =>
      have hred : handleAnalysisRequestedEvent s env (some req)
          = ([.analysisCompleted "biomarker.result.events"
                ("analysis.completed" ++ req.fileType)
                { filePath := req.filePath, resultKey := "", analysisType := req.fileType
                  processingTime := env.now - req.timestamp, timestamp := env.now
                  status := "failed", errorMessage := e }], none) := by
        simp only [handleAnalysisRequestedEvent, hE, hS]
      rw [hred]
      refine ⟨rfl, ?_⟩
      intro ce hce
      simp [completedEvents] at hce
      rw [hce]
      exact ⟨Or.inr (Or.inl rfl), iff_of_false (by simp) (by simp)⟩
    | ok k =>
      have hk : k ≠ "" := storeResult_ok_key_ne_empty env.store _ k hS
      have hred : handleAnalysisRequestedEvent s env (some req)
          = ([.analysisCompleted "biomarker.result.events"
                ("analysis.completed" ++ req.fileType)
                { filePath := req.filePath, resultKey := k, analysisType := req.fileType
                  processingTime := (ExecuteAnalysis s env.exec req.filePath).meta.duration
                  timestamp := env.now, status := "success", errorMessage := "" }], none) := by
        simp only [handleAnalysisRequestedEvent, hE, hS]
      rw [hred]
      refine ⟨rfl, ?_⟩
      intro ce hce
      simp [completedEvents] at hce
      rw [hce]
      exact ⟨Or.inl rfl, iff_of_true hk rfl⟩

/-- A worker environment whose request waited in the queue: the request
timestamp is 0 but handling happens at time 100, while the task itself runs
from 10 to 15 (duration 5). -/
def delayWorkerEnv : WorkerEnv :=
  { exec := sampleEnv
    store := { year := 2026, month := 1, day := 1, openErr := none, readErr := none, uploadErr := none }
    now := 100 }

/-- The request handled by `delayWorkerEnv`, stamped at time 0. -/
def delayRequest : AnalysisRequestedEvent :=
  { filePath := "/data/a.csv", fileType := ".csv", timestamp := 0 }

/-- Witness for C2 at the concrete successful run of `delayWorkerEnv`. -/
theorem C2_exactly_one_completed_witness :
    (handleAnalysisRequestedEvent sampleService delayWorkerEnv (some delayRequest)).1.length = 1 :=
  (C2_exactly_one_completed sampleService delayWorkerEnv delayRequest).1

/-- C5: the spec claims every published `AnalysisCompleted` carries
`processingTime` equal to the elapsed time since the original request
timestamp. On the code this holds only for the failure branch: the success
branch publishes `result.Duration`, the task's own run time. Concretely, a
request stamped at time 0 and handled at time 100 whose task ran from 10 to
15 is published with `processingTime = 5`, not `100`. -/
theorem C5_success_processing_time_is_task_duration :
    completedEvents (handleAnalysisRequestedEvent sampleService delayWorkerEnv (some delayRequest)).1
      = [{ filePath := "/data/a.csv"
           resultKey := "results/2026/01/01/0123456789abcdef/analysis_a_01234567.html"
           analysisType := ".csv"
           processingTime := 5
           timestamp := 100
           status := "success"
           errorMessage := "" }]
    ∧ (ExecuteAnalysis sampleService delayWorkerEnv.exec delayRequest.filePath).meta.duration = 5
    ∧ delayWorkerEnv.now - delayRequest.timestamp = 100
    ∧ (5 : Nat) ≠ 100 := by
  refine ⟨?_, by decide, by decide, by decide⟩
  decide

/-! ## File-detected handler claims -/

/-- C3 counterexample: a `FileDetected` whose file type `.txt` is outside the
supported set is not dropped by the worker handler — it still publishes one
`AnalysisRequested` (the claim requires zero events for unsupported types). -/
theorem C3_unsupported_filedetected_not_dropped :
    isFileTypeSupported ".txt" defaultSupportedExtensions = false
    ∧ (handleFileDetectedEvent 5
        (some { filePath := "/data/a.txt", fileType := ".txt", size := 120, timestamp := 0 })).1.length = 1
    ∧ (handleFileDetectedEvent 5
        (some { filePath := "/data/a.txt", fileType := ".txt", size := 120, timestamp := 0 })).2 = none := by
  decide

/-- C3 (amended): the worker's `FileDetected` handler publishes exactly one
`AnalysisRequested` with the same `filePath` and `fileType`, routing key
`"analysis.requested" + fileType` (which ends in the file type), for *every*
well-formed `FileDetected` regardless of file type; the supported-set filter
lives upstream in the file watcher, which emits a `FileDetected` only when
the extension passes `isFileTypeSupported`. -/
theorem C3_amended_filter_lives_in_watcher :
    (∀ (now : Nat) (fe : FileDetectedEvent),
      (handleFileDetectedEvent now (some fe)).1
        = [OutEvent.analysisRequested "biomarker.analysis.events"
            ("analysis.requested" ++ fe.fileType)
            { filePath := fe.filePath, fileType := fe.fileType, timestamp := now }]
      ∧ (handleFileDetectedEvent now (some fe)).2 = none)
    ∧ (∀ (supportedExts : List String) (ev : FsEvent) (info : FsInfo) (now : Nat)
        (fd : FileDetectedEvent),
        watcherEmits supportedExts ev info now = some fd →
        isFileTypeSupported fd.fileType supportedExts = true ∧ fd.filePath = ev.name) := by
  constructor
  · intro now fe
    exact ⟨rfl, rfl⟩
  · intro supportedExts ev info now fd h
    simp only [watcherEmits] at h
    by_cases hcw : (ev.isCreate || ev.isWrite) = true
    · rw [if_pos hcw] at h
      by_cases hsupp : isFileTypeSupported (goExt ev.name) supportedExts = true
      · rw [if_neg (not_not_intro hsupp)] at h
        by_cases hst : info.statErr = true
        · rw [if_pos hst] at h
          exact absurd h (by simp)
        · rw [if_neg hst] at h
          by_cases hdir : info.isDir = true
          · rw [if_pos hdir] at h
            exact absurd h (by simp)
          · rw [if_neg hdir] at h
            injection h with h2
            subst h2
            exact ⟨hsupp, rfl⟩
      · rw [if_pos hsupp] at h
        exact absurd h (by simp)
    · rw [if_neg hcw] at h
      exact absurd h (by simp)

/-- Witness for C3's amended statement: a supported `.csv` create event
passes the watcher filter, and the handler publishes exactly one request. -/
theorem C3_amended_filter_lives_in_watcher_witness :
    (handleFileDetectedEvent 7
        (some { filePath := "/data/b.csv", fileType := ".csv", size := 1, timestamp := 2 })).1
      = [OutEvent.analysisRequested "biomarker.analysis.events" "analysis.requested.csv"
          { filePath := "/data/b.csv", fileType := ".csv", timestamp := 7 }]
    ∧ isFileTypeSupported ".csv" defaultSupportedExtensions = true := by
  constructor
  · exact (C3_amended_filter_lives_in_watcher.1 7
      { filePath := "/data/b.csv", fileType := ".csv", size := 1, timestamp := 2 }).1
  · exact (C3_amended_filter_lives_in_watcher.2 defaultSupportedExtensions
      { name := "/data/b.csv", isCreate := true, isWrite := false }
      { statErr := false, isDir := false, size := 1 } 7
      { filePath := "/data/b.csv", fileType := ".csv", size := 1, timestamp := 7 }
      (by decide)).1

/-! ## Broker connection manager claims -/

theorem reconnectStep_preserves_closed (st : RabbitMQClient) :
    (reconnectStep st).1.closed = st.closed := by
  obtain ⟨cn, cl, cr, ca⟩ := st
  cases cr <;> cases cl <;> rfl

theorem reconnectStep_no_connect_of_closed (st : RabbitMQClient)
    (h : st.closed = true) : (reconnectStep st).2 = false := by
  obtain ⟨cn, cl, cr, ca⟩ := st
  simp only at h
  subst h
  cases cr <;> rfl

theorem reconnectIter_preserves_closed (n : Nat) (st : RabbitMQClient)
    (h : st.closed = true) : (reconnectIter n st).closed = true := by
  induction n generalizing st with
  | zero => exact h
  | succ n ih =>
    simp only [reconnectIter]
    exact ih _ (by rw [reconnectStep_preserves_closed]; exact h)

/-- C4: the spec claims that after every successful reconnection the manager
re-runs topology declaration and re-establishes all active subscriptions on
the new channel before being ready. On the code, `reconnectMonitor` only
calls `connect` (dial + open channel): starting from the worker's fully
set-up client, an unsolicited closure followed by the successful reconnect
leaves a client whose channel has had *no* declarations and *no* consumers,
although the reconnect did occur. -/
theorem C4_reconnect_drops_topology_and_subscriptions :
    workerStartupClient.chanActions
      = topologyActions ++ [ChanAction.consume "file.detected", ChanAction.consume "analysis.requested"]
    ∧ (reconnectStep (unsolicitedClose workerStartupClient)).2 = true
    ∧ (reconnectStep (unsolicitedClose workerStartupClient)).1.connected = true
    ∧ (reconnectStep (unsolicitedClose workerStartupClient)).1.chanActions = [] := by
  decide

/-- C7: `Close` sets the intentional-close flag before tearing down, so the
resulting client is closed, the teardown-triggered close notification did not
occupy the retry slot, a later watcher firing changes nothing, and no number
of reconnect-monitor rounds ever calls `connect` again. -/
theorem C7_intentional_close_never_reconnects (st : RabbitMQClient) :
    (closeClient st).closed = true
    ∧ (closeClient st).connRetry = st.connRetry
    ∧ notifyCloseWatcher (closeClient st) = closeClient st
    ∧ ∀ n : Nat, (reconnectStep (reconnectIter n (closeClient st))).2 = false := by
  refine ⟨rfl, rfl, rfl, ?_⟩
  intro n
  exact reconnectStep_no_connect_of_closed _ (reconnectIter_preserves_closed n _ rfl)

/-! ## Subscriber acknowledgment claim -/

/-- C8: the subscriber consumes with manual acknowledgment (the `auto-ack`
argument to `Consume` is false), and the delivery loop acknowledges each
message with a single-message ack (`Ack(false)`) when the handler returns
nil, and negatively acknowledges with requeue enabled (`Nack(false, true)`)
when the handler returns an error. -/
theorem C8_manual_ack_policy :
    consumeAutoAck = false
    ∧ ∀ (handler : String → Option String) (msgs : List String),
        subscribeLoop handler msgs
          = msgs.map (fun m =>
              match handler m with
              | some _ => AckAction.nack false true
              | none => AckAction.ack false) := by
  refine ⟨rfl, ?_⟩
  intro handler msgs
  induction msgs with
  | nil => rfl
  | cons m rest ih => simp [subscribeLoop, ih]

end Watchrabbit
